import Mathlib

/-!
Shallow embedding of the screen-composition and navigation engine of a
terminal text viewer (src/main.rs), together with proofs of its stated
properties.

Modelling conventions:
* Rust `usize` is modelled as `Nat`.  Every `usize` subtraction in the
  source is either guarded (no underflow) or saturating; each site is
  noted in a comment.
* A Rust `String` / `&str` / `Box<str>` is modelled as its UTF-8 byte
  sequence, `List Nat` (each entry a byte value < 256).  This keeps the
  byte-level behaviour of `str::len`, byte-range slicing and
  `is_char_boundary` observable.
* Operations that can panic (`unimplemented!()`, indexing out of bounds,
  slicing at a non-boundary byte offset) return `Option`/`Except`, with
  `none`/`.error` standing for the panic.
* Key codes and modifier sets come from the crossterm crate; the modifier
  bitset is a `Nat` (NONE = 0, CONTROL = 2), and the key codes not handled
  by any specific match arm of the program are collapsed into a single
  `Other` constructor, since every one of them hits the same `_` arms.
-/

/-- A Rust string as its UTF-8 byte sequence. -/
abbrev RStr := List Nat

/-- Subset of crossterm's KeyCode reaching the editor's match arms.
`Other k` stands for the remaining crossterm variants (Backspace, Enter,
Delete, F(n), Tab, Esc, ...), all of which hit the wildcard arms. -/
inductive KeyCode where
  | Up
  | Down
  | Left
  | Right
  | Home
  | End
  | PageUp
  | PageDown
  | Char (c : Nat)
  | Other (k : Nat)
deriving DecidableEq

/-- A crossterm KeyEvent: code plus modifier bitset
(KeyModifiers::NONE = 0, SHIFT = 1, CONTROL = 2, ALT = 4). -/
structure KeyEvent where
  code : KeyCode
  modifiers : Nat
deriving DecidableEq

/-- struct CursorController (src/main.rs:204-210). -/
structure CursorController where
  cursor_x : Nat
  cursor_y : Nat
  screen_column : Nat
  screen_row : Nat
  row_offset : Nat
deriving DecidableEq

/-- CursorController::new (src/main.rs:213-221); `win_size` is
(columns, rows), i.e. Rust's `win_size.0` is `win_size.1` here and
Rust's `win_size.1` is `win_size.2`. -/
def CursorController.new (win_size : Nat × Nat) : CursorController :=
  { cursor_x := 0
    cursor_y := 0
    screen_column := win_size.1
    screen_row := win_size.2
    row_offset := 0 }

/-- CursorController::move_cursor (src/main.rs:223-247).
`none` models the `_ => unimplemented!()` panic arm.
Up uses `saturating_sub`, modelled by truncated `Nat` subtraction.
Right/End compute `screen_column - 1`; as in the source this is only
meaningful when `screen_column ≥ 1` (a zero-width terminal would
underflow the `usize` subtraction). -/
def CursorController.move_cursor (s : CursorController) (direction : KeyCode)
    (number_of_rows : Nat) : Option CursorController :=
  match direction with
  | KeyCode.Up => some { s with cursor_y := s.cursor_y - 1 }
  | KeyCode.Left =>
      some (if s.cursor_x ≠ 0 then { s with cursor_x := s.cursor_x - 1 } else s)
  | KeyCode.Down =>
      some (if s.cursor_y < number_of_rows then { s with cursor_y := s.cursor_y + 1 } else s)
  | KeyCode.Right =>
      some (if s.cursor_x ≠ s.screen_column - 1 then { s with cursor_x := s.cursor_x + 1 } else s)
  | KeyCode.End => some { s with cursor_x := s.screen_column - 1 }
  | KeyCode.Home => some { s with cursor_x := 0 }
  | _ => none

/-- CursorController::scroll (src/main.rs:249-255).  Step 1 assigns
`row_offset = min(row_offset, cursor_y)`; step 2 reads that updated
offset.  The subtraction `cursor_y - screen_row + 1` only runs under
`cursor_y ≥ row_offset + screen_row`, so it never underflows. -/
def CursorController.scroll (s : CursorController) : CursorController :=
  if s.cursor_y ≥ min s.row_offset s.cursor_y + s.screen_row then
    { s with row_offset := s.cursor_y - s.screen_row + 1 }
  else
    { s with row_offset := min s.row_offset s.cursor_y }

/-- struct EditorRows (src/main.rs:268-270): the document's lines. -/
structure EditorRows where
  row_contents : List RStr
deriving DecidableEq

/-- EditorRows::number_of_rows (src/main.rs:292-294). -/
def EditorRows.number_of_rows (e : EditorRows) : Nat :=
  e.row_contents.length

/-- EditorRows::get_row (src/main.rs:296-298): `&self.row_contents[at]`.
`none` models the out-of-bounds index panic. -/
def EditorRows.get_row (e : EditorRows) (i : Nat) : Option RStr :=
  e.row_contents[i]?

/-- str::is_char_boundary from the Rust standard library, which governs
whether the byte-range slice `&s[..i]` is legal: true at 0, at the total
byte length, and at any byte that is not a UTF-8 continuation byte. -/
def is_char_boundary (s : RStr) (i : Nat) : Bool :=
  if i = 0 then true
  else
    match s[i]? with
    | none => decide (i = s.length)
    | some b => decide (b < 128) || decide (192 ≤ b)

/-- The welcome banner string (src/main.rs:116), as UTF-8 bytes:
"Rust Text Editor" (16 ASCII bytes). -/
def welcome : RStr :=
  [82, 117, 115, 116, 32, 84, 101, 120, 116, 32, 69, 100, 105, 116, 111, 114]

/-- The two ways one row of frame composition can panic. -/
inductive RenderErr where
  | oob
  | charBoundary
deriving DecidableEq

/-- The welcome-banner bytes composed by the banner branch of
Output::draw_rows (src/main.rs:116-130): truncate the banner to the
window width (`String::truncate` here always cuts ASCII, hence at a char
boundary), compute the centering padding, and if the padding is nonzero
emit the filler marker '~' (126) in place of its first space (32).
After truncation `w.length ≤ screen_column`, so the `usize` subtraction
`screen_column - w.length` never underflows. -/
def banner_row (screen_column : Nat) : RStr :=
  let w := if welcome.length > screen_column then welcome.take screen_column else welcome
  let padding := (screen_column - w.length) / 2
  if padding ≠ 0 then
    126 :: (List.replicate (padding - 1) 32 ++ w)
  else
    List.replicate padding 32 ++ w

/-- The content bytes pushed for window row `i` by the body of the loop
in Output::draw_rows (src/main.rs:111-138), excluding the trailing
erase-to-end-of-line control sequence and the "\r\n" separator;
`i + row_offset` is the loop's `file_row`.
  * `.error .oob` models the index panic inside get_row;
  * `.error .charBoundary` models the panic of the byte-range slice
    `&row[..len]`, `len = min(row.len(), screen_column)`, when `len` is
    not a char boundary (the source clips by raw byte count). -/
def draw_row (editor_rows : EditorRows) (row_offset screen_row screen_column i : Nat) :
    Except RenderErr RStr :=
  if i + row_offset ≥ editor_rows.number_of_rows then
    if editor_rows.number_of_rows = 0 ∧ i = screen_row / 3 then
      Except.ok (banner_row screen_column)
    else
      Except.ok [126]
  else
    match editor_rows.get_row (i + row_offset) with
    | none => Except.error RenderErr.oob
    | some row =>
        if is_char_boundary row (min row.length screen_column) then
          Except.ok (row.take (min row.length screen_column))
        else
          Except.error RenderErr.charBoundary

/-- The `for i in 0..screen_row` loop of Output::draw_rows, collecting
each row's content bytes; the first panic aborts composition. -/
def draw_rows_from (editor_rows : EditorRows) (row_offset screen_row screen_column i : Nat) :
    Nat → Except RenderErr (List RStr)
  | 0 => Except.ok []
  | fuel + 1 =>
      match draw_row editor_rows row_offset screen_row screen_column i with
      | Except.error e => Except.error e
      | Except.ok r =>
          match draw_rows_from editor_rows row_offset screen_row screen_column (i + 1) fuel with
          | Except.error e => Except.error e
          | Except.ok rest => Except.ok (r :: rest)

/-- struct Output (src/main.rs:79-84).  `win_size` is (columns, rows).
The frame buffer (`editor_contents`) is not part of the navigation state:
its per-cycle content is what `Output.draw_rows` returns. -/
structure Output where
  win_size : Nat × Nat
  cursor_controller : CursorController
  editor_rows : EditorRows
deriving DecidableEq

/-- Output::draw_rows (src/main.rs:108-149): render every window row. -/
def Output.draw_rows (o : Output) : Except RenderErr (List RStr) :=
  draw_rows_from o.editor_rows o.cursor_controller.row_offset o.win_size.2 o.win_size.1 0
    o.win_size.2

/-- Output::move_cursor (src/main.rs:99-101). -/
def Output.move_cursor (o : Output) (direction : KeyCode) : Option Output :=
  (o.cursor_controller.move_cursor direction o.editor_rows.number_of_rows).map
    (fun cc => { o with cursor_controller := cc })

/-- The `(0..win_size.1).for_each(|_| move_cursor ...)` repetition of the
PageUp/PageDown arm (src/main.rs:46-52). -/
def repeat_move (o : Output) (direction : KeyCode) : Nat → Option Output
  | 0 => some o
  | k + 1 => (o.move_cursor direction).bind (fun o2 => repeat_move o2 direction k)

/-- Whether a key code matches the direction-key pattern
`Up | Down | Left | Right | Home | End` of Editor::process_keypress
(src/main.rs:33-39). -/
def is_direction_key : KeyCode → Bool
  | KeyCode.Up | KeyCode.Down | KeyCode.Left | KeyCode.Right
  | KeyCode.Home | KeyCode.End => true
  | _ => false

/-- Editor::process_keypress (src/main.rs:23-57), as a guard chain in the
source's arm order: Ctrl+q (modifiers exactly CONTROL = 2) returns
`(o, false)`; a direction key with no modifier moves the cursor; PageUp /
PageDown with no modifier repeat Up / Down `win_size.1` (= rows) times;
everything else is a no-op returning `(o, true)`.  `none` propagates a
move_cursor panic. -/
def process_keypress (o : Output) (e : KeyEvent) : Option (Output × Bool) :=
  if e.code = KeyCode.Char 113 ∧ e.modifiers = 2 then
    some (o, false)
  else if is_direction_key e.code ∧ e.modifiers = 0 then
    (o.move_cursor e.code).map (fun o2 => (o2, true))
  else if (e.code = KeyCode.PageUp ∨ e.code = KeyCode.PageDown) ∧ e.modifiers = 0 then
    (repeat_move o (if e.code = KeyCode.PageUp then KeyCode.Up else KeyCode.Down)
        o.win_size.2).map (fun o2 => (o2, true))
  else
    some (o, true)

/-- The state effect of Output::refresh_screen (src/main.rs:151-161) on
the navigation state: the scroll reconciliation step.  (The rest of
refresh_screen only writes into and flushes the frame buffer.) -/
def refresh_state (o : Output) : Output :=
  { o with cursor_controller := o.cursor_controller.scroll }

/-- The session loop `while editor.run()? {}` (src/main.rs:302-312) with
Editor::run = refresh_screen then process_keypress (src/main.rs:59-62),
counting how many refresh_screen calls occur while consuming the given
key events in order.  An exhausted event list models read_key blocking
forever: one final refresh has happened, then the loop is stuck in the
poll, so no further refresh is counted.  A `none` from process_keypress
(a panic) likewise ends the count after the refresh that preceded it. -/
def session_refresh_count (o : Output) : List KeyEvent → Nat
  | [] => 1
  | e :: es =>
      match process_keypress (refresh_state o) e with
      | none => 1
      | some (o2, true) => 1 + session_refresh_count o2 es
      | some (_, false) => 1

/-- Sequential application of move_cursor for a whole key sequence, with
a fixed document line count; a panic anywhere aborts (claim C3 only ever
exercises the six direction keys, for which no panic occurs). -/
def apply_moves : CursorController → List KeyCode → Nat → Option CursorController
  | s, [], _ => some s
  | s, d :: ds, n =>
      match s.move_cursor d n with
      | none => none
      | some s2 => apply_moves s2 ds n

/-- UTF-8 validation as performed by std::str::from_utf8: leading byte
classes C2-DF (2 bytes), E0-EF (3 bytes, rejecting overlong E0 80-9F and
surrogates ED A0-BF), F0-F4 (4 bytes, rejecting overlong F0 80-8F and
codepoints above U+10FFFF), each followed by continuation bytes 80-BF. -/
def utf8_valid : List Nat → Bool
  | [] => true
  | b :: rest =>
    if b < 128 then utf8_valid rest
    else if b < 194 then false
    else if b < 224 then
      match rest with
      | b1 :: r => decide (128 ≤ b1) && decide (b1 < 192) && utf8_valid r
      | [] => false
    else if b < 240 then
      match rest with
      | b1 :: b2 :: r =>
          (if b = 224 then decide (160 ≤ b1) && decide (b1 < 192)
           else if b = 237 then decide (128 ≤ b1) && decide (b1 < 160)
           else decide (128 ≤ b1) && decide (b1 < 192))
          && (decide (128 ≤ b2) && decide (b2 < 192))
          && utf8_valid r
      | _ => false
    else if b < 245 then
      match rest with
      | b1 :: b2 :: b3 :: r =>
          (if b = 240 then decide (144 ≤ b1) && decide (b1 < 192)
           else if b = 244 then decide (128 ≤ b1) && decide (b1 < 144)
           else decide (128 ≤ b1) && decide (b1 < 192))
          && (decide (128 ≤ b2) && decide (b2 < 192))
          && (decide (128 ≤ b3) && decide (b3 < 192))
          && utf8_valid r
      | _ => false
    else false

/-- std::str::from_utf8: validates the byte slice and, on success, yields
the same bytes viewed as a str (so its byte length equals the input's). -/
def from_utf8 (buf : List Nat) : Option RStr :=
  if utf8_valid buf then some buf else none

/-- The io::ErrorKind values this program produces. -/
inductive ErrorKind where
  | WriteZero
deriving DecidableEq

/-- struct EditorContents (src/main.rs:164-166): the frame buffer. -/
structure EditorContents where
  content : RStr
deriving DecidableEq

/-- io::Write::write for EditorContents (src/main.rs:186-194): decode the
buffer as UTF-8; on success append it and return the decoded string's
byte length (which is the full input length); on failure return the
WriteZero error kind. -/
def EditorContents.write (self : EditorContents) (buf : List Nat) :
    Except ErrorKind (EditorContents × Nat) :=
  match from_utf8 buf with
  | some s => Except.ok (⟨self.content ++ s⟩, s.length)
  | none => Except.error ErrorKind.WriteZero

/-! ## Helper lemmas -/

/-- move_cursor succeeds exactly on the six direction keys; every other
key code hits the `_ => unimplemented!()` arm. -/
theorem move_cursor_isSome_eq (s : CursorController) (c : KeyCode) (n : Nat) :
    (s.move_cursor c n).isSome = is_direction_key c := by
  cases c <;> simp [CursorController.move_cursor, is_direction_key]

/-- Output::move_cursor succeeds on direction keys. -/
theorem output_move_cursor_isSome (o : Output) (c : KeyCode) (h : is_direction_key c = true) :
    (o.move_cursor c).isSome := by
  simp [Output.move_cursor, move_cursor_isSome_eq, h]

/-- The PageUp/PageDown repetition succeeds when driven by a direction key. -/
theorem repeat_move_isSome (c : KeyCode) (h : is_direction_key c = true) :
    ∀ (k : Nat) (o : Output), (repeat_move o c k).isSome := by
  intro k
  induction k with
  | zero => intro o; simp [repeat_move]
  | succ m ih =>
      intro o
      simp only [repeat_move]
      rcases ho : o.move_cursor c with _ | o2
      · exact absurd (ho ▸ output_move_cursor_isSome o c h) (by simp)
      · simpa using ih o2

/-- One successful move_cursor step keeps the window width, the
horizontal cursor bound and the vertical document bound. -/
theorem move_cursor_step (s s2 : CursorController) (d : KeyCode) (n : Nat)
    (hcol : 1 ≤ s.screen_column) (hx : s.cursor_x < s.screen_column) (hy : s.cursor_y ≤ n)
    (h : s.move_cursor d n = some s2) :
    s2.screen_column = s.screen_column ∧ s2.cursor_x < s2.screen_column ∧ s2.cursor_y ≤ n := by
  cases d <;> simp only [CursorController.move_cursor, Option.some.injEq] at h
  case Up => subst h; simp; omega
  case Down => split at h <;> subst h <;> simp <;> omega
  case Left => split at h <;> subst h <;> simp <;> omega
  case Right => split at h <;> subst h <;> simp <;> omega
  case Home => subst h; simp; omega
  case End => subst h; simp; omega
  all_goals cases h

/-- The cursor bounds are preserved along any successful move sequence. -/
theorem apply_moves_bounds_aux (ds : List KeyCode) (n : Nat) :
    ∀ (s s2 : CursorController), 1 ≤ s.screen_column → s.cursor_x < s.screen_column →
    s.cursor_y ≤ n → apply_moves s ds n = some s2 →
    s2.screen_column = s.screen_column ∧ s2.cursor_x < s2.screen_column ∧ s2.cursor_y ≤ n := by
  induction ds with
  | nil =>
      intro s s2 h1 h2 h3 h4
      simp only [apply_moves, Option.some.injEq] at h4
      subst h4
      exact ⟨rfl, h2, h3⟩
  | cons d ds ih =>
      intro s s2 h1 h2 h3 h4
      simp only [apply_moves] at h4
      rcases hm : s.move_cursor d n with _ | smid
      · rw [hm] at h4; cases h4
      · rw [hm] at h4
        obtain ⟨e1, e2, e3⟩ := move_cursor_step s smid d n h1 h2 h3 hm
        obtain ⟨f1, f2, f3⟩ := ih smid s2 (by omega) e2 e3 h4
        exact ⟨by omega, f2, f3⟩

/-- A single row of frame composition never raises the out-of-bounds
condition: get_row is reached only under `file_row < number_of_rows`. -/
theorem draw_row_ne_oob (er : EditorRows) (off sr sc i : Nat) :
    draw_row er off sr sc i ≠ Except.error RenderErr.oob := by
  unfold draw_row
  split
  · split <;> simp
  · rcases hg : er.get_row (i + off) with _ | row
    · exfalso
      rename_i hlt
      simp only [EditorRows.get_row, List.getElem?_eq_none_iff] at hg
      simp only [EditorRows.number_of_rows, ge_iff_le, not_le] at hlt
      omega
    · simp only [hg]
      split <;> simp

/-- The row loop never raises the out-of-bounds condition either. -/
theorem draw_rows_from_ne_oob (er : EditorRows) (off sr sc : Nat) :
    ∀ fuel i, draw_rows_from er off sr sc i fuel ≠ Except.error RenderErr.oob := by
  intro fuel
  induction fuel with
  | zero => intro i; simp [draw_rows_from]
  | succ k ih =>
      intro i
      simp only [draw_rows_from]
      rcases h : draw_row er off sr sc i with e | r
      · cases e
        · exact absurd h (draw_row_ne_oob er off sr sc i)
        · simp
      · rcases h2 : draw_rows_from er off sr sc (i + 1) k with e2 | rest
        · cases e2
          · exact absurd h2 (ih (i + 1))
          · simp
        · simp

/-- The Ctrl+q arm of process_keypress returns `(o, false)`. -/
theorem ctrl_q_quits (o : Output) :
    process_keypress o ⟨KeyCode.Char 113, 2⟩ = some (o, false) := by
  simp [process_keypress]

/-! ## Claim theorems -/

/-- Claim C1 (refuted by the code, see `RenderErr.charBoundary`):
the source clips a document line with `&row[..min(row.len(), columns)]`,
a raw byte slice, so a 2-byte character 0xC3 0xA9 in a 1-column window
puts the clip point inside the character and rendering that row panics
instead of emitting `columns` characters. -/
theorem draw_row_multibyte_clip_fails :
    draw_row ⟨[[195, 169]]⟩ 0 1 1 0 = Except.error RenderErr.charBoundary := rfl

/-- Claim C2: for any state with `screen_row ≥ 1`, after scroll() the
cursor's document row lies in the visible band:
`row_offset ≤ cursor_y ≤ row_offset + rows − 1`. -/
theorem scroll_keeps_cursor_in_band (s : CursorController) (h : 1 ≤ s.screen_row) :
    s.scroll.row_offset ≤ s.cursor_y ∧
    s.cursor_y ≤ s.scroll.row_offset + s.screen_row - 1 := by
  unfold CursorController.scroll
  split <;> simp only <;> omega

/-- Witness for `scroll_keeps_cursor_in_band` at the concrete state
(x 0, y 5, columns 10, rows 3, offset 0). -/
theorem scroll_band_witness :
    1 ≤ (⟨0, 5, 10, 3, 0⟩ : CursorController).screen_row ∧
    ((⟨0, 5, 10, 3, 0⟩ : CursorController).scroll.row_offset ≤
        (⟨0, 5, 10, 3, 0⟩ : CursorController).cursor_y ∧
      (⟨0, 5, 10, 3, 0⟩ : CursorController).cursor_y ≤
        (⟨0, 5, 10, 3, 0⟩ : CursorController).scroll.row_offset +
          (⟨0, 5, 10, 3, 0⟩ : CursorController).screen_row - 1) :=
  ⟨by decide, scroll_keeps_cursor_in_band ⟨0, 5, 10, 3, 0⟩ (by decide)⟩

/-- Claim C3: starting from the initial cursor state with `columns ≥ 1`,
every sequence of Up/Down/Left/Right/Home/End moves with a fixed document
line count `L` keeps `cursor_x < columns` and `cursor_y ≤ L` (quantifying
over all sequences covers every prefix, i.e. the bound holds after every
operation; `0 ≤` is inherent to `Nat`). -/
theorem move_cursor_bounds (cols r L : Nat) (ds : List KeyCode) (st2 : CursorController)
    (hcols : 1 ≤ cols)
    (h : apply_moves (CursorController.new (cols, r)) ds L = some st2) :
    st2.cursor_x < cols ∧ st2.cursor_y ≤ L := by
  obtain ⟨e1, e2, e3⟩ := apply_moves_bounds_aux ds L (CursorController.new (cols, r)) st2
    (by simpa [CursorController.new] using hcols) (by simpa [CursorController.new] using hcols)
    (by simp [CursorController.new]) h
  refine ⟨?_, e3⟩
  rw [e1] at e2
  simpa [CursorController.new] using e2

/-- Witness for `move_cursor_bounds`: columns 2, rows 5, document of 1
line, sequence Down, Right, Up, Left, End, Home ending at (0, 0). -/
theorem move_cursor_bounds_witness :
    (1 ≤ 2 ∧
      apply_moves (CursorController.new (2, 5))
        [KeyCode.Down, KeyCode.Right, KeyCode.Up, KeyCode.Left, KeyCode.End, KeyCode.Home] 1 =
        some ⟨0, 0, 2, 5, 0⟩) ∧
    ((⟨0, 0, 2, 5, 0⟩ : CursorController).cursor_x < 2 ∧
      (⟨0, 0, 2, 5, 0⟩ : CursorController).cursor_y ≤ 1) :=
  ⟨⟨by decide, by decide⟩,
    move_cursor_bounds 2 5 1
      [KeyCode.Down, KeyCode.Right, KeyCode.Up, KeyCode.Left, KeyCode.End, KeyCode.Home]
      ⟨0, 0, 2, 5, 0⟩ (by decide) (by decide)⟩

/-- Claim C4 as stated is false: with an empty document, columns 40 and
rows 21, the banner row (window row 7 = 21 / 3) is the marker '~'
followed by 11 spaces and the 16-byte banner (28 bytes), not '~' followed
by (40 − 16) / 2 = 12 spaces (which would be 29 bytes): the marker is
pushed in place of the first padding space (`padding -= 1`). -/
theorem banner_padding_claim_false :
    draw_row ⟨[]⟩ 0 21 40 7 = Except.ok (126 :: (List.replicate 11 32 ++ welcome)) ∧
    (126 :: (List.replicate 11 32 ++ welcome) : RStr).length = 28 ∧
    (126 :: (List.replicate 12 32 ++ welcome) : RStr).length = 29 :=
  ⟨rfl, by decide, by decide⟩

/-- Claim C4 (amended): with an empty document, columns 40 and rows 21,
draw_rows renders the welcome banner on window row 21 / 3 = 7; that row
is one filler marker '~' followed by (40 − len(banner)) / 2 − 1 = 11
space characters and then the banner text (the marker replaces the first
padding space, so the banner starts at column (40 − len) / 2 = 12);
neighbouring empty rows get a single '~'. -/
theorem banner_row_content :
    draw_row ⟨[]⟩ 0 21 40 7 = Except.ok (126 :: (List.replicate 11 32 ++ welcome)) ∧
    draw_row ⟨[]⟩ 0 21 40 6 = Except.ok [126] ∧
    draw_row ⟨[]⟩ 0 21 40 8 = Except.ok [126] :=
  ⟨rfl, rfl, rfl⟩

/-- Claim C5: the Frame Buffer's write method returns the WriteZero error
on a non-UTF-8 buffer, and on a valid buffer appends all of it and
returns the full input length. -/
theorem editor_contents_write_spec (c : EditorContents) (buf : List Nat) :
    (utf8_valid buf = false → c.write buf = Except.error ErrorKind.WriteZero) ∧
    (utf8_valid buf = true → c.write buf = Except.ok (⟨c.content ++ buf⟩, buf.length)) := by
  constructor
  · intro h
    simp [EditorContents.write, from_utf8, h]
  · intro h
    simp [EditorContents.write, from_utf8, h]

/-- Witness for `editor_contents_write_spec`: the lone byte 0xFF is
rejected as a zero-length write; the ASCII byte 104 is appended in full
with return value 1. -/
theorem editor_contents_write_witness :
    ((⟨[]⟩ : EditorContents).write [255] = Except.error ErrorKind.WriteZero) ∧
    ((⟨[]⟩ : EditorContents).write [104] = Except.ok (⟨[104]⟩, 1)) :=
  ⟨(editor_contents_write_spec ⟨[]⟩ [255]).1 (by decide),
    (editor_contents_write_spec ⟨[]⟩ [104]).2 (by decide)⟩

/-- Claim C6: scroll() is idempotent — a second call with no intervening
cursor change leaves row_offset unchanged. -/
theorem scroll_idempotent (s : CursorController) :
    s.scroll.scroll.row_offset = s.scroll.row_offset := by
  unfold CursorController.scroll
  split <;> split <;> simp_all <;> omega

/-- Claim C7: Ctrl+q ('q' with the CONTROL modifier) makes
process_keypress return false, and the session loop performs no further
refresh_screen call: any events after the quit event leave the refresh
count unchanged. -/
theorem ctrl_q_stops_session (o : Output) (es1 es2 : List KeyEvent) :
    process_keypress o ⟨KeyCode.Char 113, 2⟩ = some (o, false) ∧
    session_refresh_count o (es1 ++ ⟨KeyCode.Char 113, 2⟩ :: es2) =
      session_refresh_count o (es1 ++ [⟨KeyCode.Char 113, 2⟩]) := by
  refine ⟨ctrl_q_quits o, ?_⟩
  induction es1 generalizing o with
  | nil =>
      simp only [List.nil_append, session_refresh_count, ctrl_q_quits (refresh_state o)]
  | cons e rest ih =>
      simp only [List.cons_append, session_refresh_count]
      rcases h : process_keypress (refresh_state o) e with _ | ⟨o2, b⟩
      · rfl
      · cases b
        · rfl
        · exact congrArg (fun t => 1 + t) (ih o2)

/-- Claim C8: the get_row accessor's out-of-bounds condition is
unreachable during frame composition — draw_rows never yields it, because
its only get_row call is guarded by `file_row < number_of_rows()`. -/
theorem draw_rows_no_oob (o : Output) :
    o.draw_rows ≠ Except.error RenderErr.oob := by
  unfold Output.draw_rows
  exact draw_rows_from_ne_oob _ _ _ _ _ _

/-- Claim C9: move_cursor succeeds exactly on the six direction keys
(every other key code hits the `unimplemented!()` arm, modelled as
`none`), and process_keypress never propagates that panic: on every key
event it returns a result. -/
theorem move_cursor_wildcard_unreachable (s : CursorController) (c : KeyCode) (n : Nat)
    (o : Output) (e : KeyEvent) :
    (s.move_cursor c n).isSome = is_direction_key c ∧
    (process_keypress o e).isSome = true := by
  refine ⟨move_cursor_isSome_eq s c n, ?_⟩
  unfold process_keypress
  split
  · simp
  · split
    · rename_i hd
      simp only [Option.isSome_map']
      exact output_move_cursor_isSome o e.code (by simpa using hd.1)
    · split
      · rename_i hp
        simp only [Option.isSome_map']
        apply repeat_move_isSome
        rcases hp.1 with h | h <;> simp [h, is_direction_key]
      · simp

/-- Claim C10: move_cursor leaves row_offset, screen_column and
screen_row unchanged, and scroll() leaves cursor_x, cursor_y,
screen_column and screen_row unchanged. -/
theorem move_scroll_frame_effects (s s2 : CursorController) (d : KeyCode) (n : Nat) :
    (s.move_cursor d n = some s2 →
      s2.row_offset = s.row_offset ∧ s2.screen_column = s.screen_column ∧
      s2.screen_row = s.screen_row) ∧
    (s.scroll.cursor_x = s.cursor_x ∧ s.scroll.cursor_y = s.cursor_y ∧
      s.scroll.screen_column = s.screen_column ∧ s.scroll.screen_row = s.screen_row) := by
  constructor
  · intro h
    cases d <;> simp only [CursorController.move_cursor, Option.some.injEq] at h
    case Up => subst h; simp
    case Down => split at h <;> subst h <;> simp
    case Left => split at h <;> subst h <;> simp
    case Right => split at h <;> subst h <;> simp
    case Home => subst h; simp
    case End => subst h; simp
    all_goals cases h
  · unfold CursorController.scroll
    split <;> simp

/-- Witness for `move_scroll_frame_effects`: the state
(x 1, y 2, columns 3, rows 4, offset 5), moved Up with document length 0,
yields (x 1, y 1, columns 3, rows 4, offset 5). -/
theorem move_scroll_frame_effects_witness :
    ((⟨1, 1, 3, 4, 5⟩ : CursorController).row_offset =
        (⟨1, 2, 3, 4, 5⟩ : CursorController).row_offset ∧
      (⟨1, 1, 3, 4, 5⟩ : CursorController).screen_column =
        (⟨1, 2, 3, 4, 5⟩ : CursorController).screen_column ∧
      (⟨1, 1, 3, 4, 5⟩ : CursorController).screen_row =
        (⟨1, 2, 3, 4, 5⟩ : CursorController).screen_row) ∧
    ((⟨1, 2, 3, 4, 5⟩ : CursorController).scroll.cursor_x =
        (⟨1, 2, 3, 4, 5⟩ : CursorController).cursor_x ∧
      (⟨1, 2, 3, 4, 5⟩ : CursorController).scroll.cursor_y =
        (⟨1, 2, 3, 4, 5⟩ : CursorController).cursor_y ∧
      (⟨1, 2, 3, 4, 5⟩ : CursorController).scroll.screen_column =
        (⟨1, 2, 3, 4, 5⟩ : CursorController).screen_column ∧
      (⟨1, 2, 3, 4, 5⟩ : CursorController).scroll.screen_row =
        (⟨1, 2, 3, 4, 5⟩ : CursorController).screen_row) :=
  ⟨(move_scroll_frame_effects ⟨1, 2, 3, 4, 5⟩ ⟨1, 1, 3, 4, 5⟩ KeyCode.Up 0).1 (by decide),
    (move_scroll_frame_effects ⟨1, 2, 3, 4, 5⟩ ⟨1, 1, 3, 4, 5⟩ KeyCode.Up 0).2⟩
